import Mathlib

/-!
Verification of the scene-search tutorial pipeline (scenes-tutorial.ipynb).

The development shallowly embeds the notebook's core functions:

* `search_frames` (cell 27): pandas-based semantic search over the frame
  corpus.  A pandas `DataFrame` is modelled as a list of column names plus a
  list of typed rows; `pd.DataFrame(list_of_dicts)` yields no columns when the
  list is empty, and column access on a missing column raises `KeyError`,
  which the embedding models with `Except`.
* `cosine_similarity` (sklearn): modelled over real vectors, including
  sklearn's `normalize` guard that replaces a zero row norm by 1.
* `process_frame` and the `ThreadPoolExecutor.map` orchestration (cell 29):
  each external collaborator (upload, caption, embed) is a fallible function;
  `list(executor.map f xs)` yields results in input order and re-raises the
  first exception encountered, which `executor_map_list` models with `Except`.
* `extract_key_frames` (cell 17): scene detection, capture opening and
  per-scene frame reads are modelled by explicit outcome parameters; the
  result records the returned frame list, the printed diagnostics, and
  whether `video_manager.release()` / `cap.release()` were executed.

Similarity scores are modelled over `ℚ` where only their ordering matters
(the sort in `search_frames`), and over `ℝ` where the cosine formula itself
is at stake.
-/

namespace SceneSearch

/-! ## The frame corpus: pandas `DataFrame` model -/

/-- One record of the frame corpus: the dictionary built by `process_frame`
(cell 29), plus the `similarity` column that `search_frames` may have
assigned (absent, i.e. `none`, until a query has run). -/
structure Row where
  frame_filename : String
  image_url : String
  caption : String
  embedding : List ℚ
  similarity : Option ℚ
deriving DecidableEq

/-- A pandas data frame over `Row`s: its column names and its records. -/
structure DataFrame where
  columns : List String
  rows : List Row
deriving DecidableEq

/-- The columns of the dictionaries returned by `process_frame`. -/
def baseCols : List String :=
  ["frame_filename", "image_url", "caption", "embedding"]

/-- Models `pd.DataFrame(records)` for a list of `process_frame` dictionaries
(cell 29): an empty record list yields a data frame with no columns at all. -/
def pdDataFrame (records : List Row) : DataFrame :=
  { columns := if records = [] then [] else baseCols, rows := records }

/-- The sort key used by `df_frames.sort_values(given the similarity column)`:
the value of the similarity column (0 as a dummy for an absent value; after
the assignment in `search_frames` every row has one). -/
def simKey (r : Row) : ℚ :=
  r.similarity.getD 0

/-- Row comparison by ascending similarity, the order underlying the argsort
inside `sort_values`. -/
def simLE (a b : Row) : Prop :=
  simKey a ≤ simKey b

instance : DecidableRel simLE :=
  fun a b => inferInstanceAs (Decidable (simKey a ≤ simKey b))

instance : IsTotal Row simLE :=
  ⟨fun a b => le_total (simKey a) (simKey b)⟩

instance : IsTrans Row simLE :=
  ⟨fun _ _ _ hab hbc => le_trans hab hbc⟩

/-- Models `df.sort_values(by the similarity column, ascending=False)`.
Pandas' `nargsort` handles a descending sort by reversing the values,
argsorting ascending, and reversing the resulting indexer, so the row order
produced is `reverse (ascending argsort (reverse rows))`.  The default
`kind` is numpy's quicksort (an introsort), which is documented as unstable;
it is modelled here by `List.insertionSort`, which is exact for inputs of at
most 16 elements (below numpy's small-partition cutoff the introsort runs as
a pure insertion sort) but idealises the order of equal-key rows beyond
that.  The theorems in this file rely only on facts independent of that
idealisation — the sorted output's length and multiset of rows — and not on
the relative order of rows with equal similarity. -/
def sort_values_desc (rows : List Row) : List Row :=
  (List.insertionSort simLE rows.reverse).reverse

/-- Models `search_frames(prompt, df_frames, top_n)` (cell 27).  The similarity
of a stored embedding to the fixed query embedding — in the source
`cosine_similarity(np.array(x).reshape(1, -1), np.array(prompt_embedding).reshape(1, -1))[0][0]`
— is abstracted as the function `sim` (the cosine formula itself is modelled
separately as `cosine_similarity` below).  Steps, in source order:
access `df_frames[the embedding column]` (raising `KeyError` when the column
is absent), assign the computed scores to `df_frames[the similarity column]`
(an in-place mutation of the corpus table, returned as the first component),
then `sort_values(ascending=False).head(top_n)` for the result rows. -/
def search_frames (sim : List ℚ → ℚ) (df : DataFrame) (top_n : ℕ) :
    Except String (DataFrame × List Row) :=
  if "embedding" ∈ df.columns then
    let rows2 := df.rows.map (fun r => { r with similarity := some (sim r.embedding) })
    let cols2 := if "similarity" ∈ df.columns then df.columns else df.columns ++ ["similarity"]
    Except.ok (⟨cols2, rows2⟩, (sort_values_desc rows2).take top_n)
  else
    Except.error "KeyError: embedding"

/-- Forgets the similarity column of a row (for stating that `search_frames`
leaves the base fields of each record unchanged). -/
def clearSim (r : Row) : Row :=
  { r with similarity := none }

/-- A constant similarity scorer (a concrete instance of the abstracted
cosine-similarity-to-the-query function). -/
def simZero : List ℚ → ℚ :=
  fun _ => 0

/-- A constant similarity scorer assigning score 1 to every embedding. -/
def simOne : List ℚ → ℚ :=
  fun _ => 1

/-- A concrete corpus record (scene 0). -/
def r0 : Row :=
  ⟨"frames/frame_0.jpg", "https://bucket/frames/frame_0.jpg", "caption zero", [1, 0], none⟩

/-- A concrete corpus record (scene 1). -/
def r1 : Row :=
  ⟨"frames/frame_1.jpg", "https://bucket/frames/frame_1.jpg", "caption one", [0, 1], none⟩

/-- `r0` after `search_frames` with scorer `simOne` has assigned its
similarity. -/
def r0s : Row :=
  { r0 with similarity := some 1 }

/-- `r1` after `search_frames` with scorer `simOne` has assigned its
similarity. -/
def r1s : Row :=
  { r1 with similarity := some 1 }

/-- A concrete two-record corpus whose records get equal similarity under
`simOne`. -/
def dfPair : DataFrame :=
  pdDataFrame [r0, r1]

/-- The corpus table `dfPair` as mutated by `search_frames simOne`. -/
def dfPairOut : DataFrame :=
  ⟨baseCols ++ ["similarity"], [r0s, r1s]⟩

/-! ## Cosine similarity (sklearn) -/

/-- Dot product of two real vectors (`numpy` inner product of the flattened
1-row matrices). -/
noncomputable def dotR (x y : List ℝ) : ℝ :=
  (List.zipWith (fun a b => a * b) x y).sum

/-- Euclidean norm of a vector, as computed by sklearn's `row_norms`. -/
noncomputable def l2norm (x : List ℝ) : ℝ :=
  Real.sqrt (dotR x x)

/-- The norm actually divided by in sklearn's `normalize`: zero norms are
replaced by 1 (`norms[norms == 0.0] = 1.0`), so a zero vector is left
untouched instead of causing a division by zero. -/
noncomputable def safeNorm (x : List ℝ) : ℝ :=
  if l2norm x = 0 then 1 else l2norm x

/-- Models `sklearn.metrics.pairwise.cosine_similarity` on two single-row
inputs: both rows are `normalize`d (dividing by `safeNorm`) and then dotted,
i.e. `⟪x, y⟫ / (safeNorm x * safeNorm y)`. -/
noncomputable def cosine_similarity (x y : List ℝ) : ℝ :=
  dotR x y / (safeNorm x * safeNorm y)

/-! ## Frame annotation (cell 29) -/

/-- The dictionary returned by `process_frame` for one frame. -/
structure FrameData where
  frame_filename : String
  image_url : String
  caption : String
  embedding : List ℚ
deriving DecidableEq

/-- Models `process_frame(frame_filename)` (cell 29) with its three external
collaborators passed explicitly: `upload_image_to_s3`, `generate_caption` and
`get_embedding`.  Each step may raise; the function has no handler of its
own, so the first raised error propagates. -/
def process_frame (upload : String → Except String String)
    (captionOf : String → Except String String)
    (embedOf : String → Except String (List ℚ))
    (frame_filename : String) : Except String FrameData :=
  match upload frame_filename with
  | Except.error e => Except.error e
  | Except.ok image_url =>
    match captionOf image_url with
    | Except.error e => Except.error e
    | Except.ok caption =>
      match embedOf caption with
      | Except.error e => Except.error e
      | Except.ok embedding => Except.ok ⟨frame_filename, image_url, caption, embedding⟩

/-- Models `list(executor.map(f, frame_list))` (cell 29): the iterator yields
results in input order, and materialising it re-raises the first exception in
that order, discarding any results of sibling tasks.  There is no per-frame
handler in the source, so one failure aborts the whole materialisation. -/
def executor_map_list (f : String → Except String FrameData) :
    List String → Except String (List FrameData)
  | [] => Except.ok []
  | a :: l =>
    match f a with
    | Except.error e => Except.error e
    | Except.ok b =>
      match executor_map_list f l with
      | Except.error e => Except.error e
      | Except.ok bs => Except.ok (b :: bs)

/-- Concrete upload collaborator: always succeeds with a bucket URL. -/
def cexUpload (f : String) : Except String String :=
  Except.ok ("https://bucket/frames/" ++ f)

/-- Concrete caption collaborator: times out on the image of frame 1, succeeds
on every other image. -/
def cexCaption (url : String) : Except String String :=
  if url = "https://bucket/frames/frame_1.jpg" then Except.error "caption call timed out"
  else Except.ok "a caption"

/-- Concrete embedding collaborator: always succeeds. -/
def cexEmbed (_caption : String) : Except String (List ℚ) :=
  Except.ok [1, 0]

/-- The ten frame filenames of the spec scenario (frame 1 will fail). -/
def tenFrames : List String :=
  ["frame_0.jpg", "frame_1.jpg", "frame_2.jpg", "frame_3.jpg", "frame_4.jpg",
   "frame_5.jpg", "frame_6.jpg", "frame_7.jpg", "frame_8.jpg", "frame_9.jpg"]

/-! ## Key-frame extraction (cell 17) -/

/-- Everything observable about one run of `extract_key_frames`: the returned
list, the printed messages, and whether the two decoder handles were
released. -/
structure ExtractResult where
  frames : List String
  diagnostics : List String
  vmReleased : Bool
  capReleased : Bool
deriving DecidableEq

/-- The message printed when scene detection raises. -/
def sceneDetectErrorMsg (e : String) : String :=
  "Error during scene detection: " ++ e

/-- The message printed when no scenes are detected. -/
def noScenesMsg : String :=
  "No scenes were detected in the video."

/-- The message printed after successful detection. -/
def detectedMsg (n : ℕ) : String :=
  s!"Detected {n} scenes in video."

/-- The message printed when `cv2.VideoCapture` fails to open the file. -/
def openFailMsg (videoPath : String) : String :=
  "Failed to open video file " ++ videoPath

/-- The per-scene progress message. -/
def processingMsg (i total : ℕ) : String :=
  s!"Processing scene {i + 1}/{total}"

/-- The message printed when `cap.read()` fails for a scene. -/
def readFailMsg (startFrame : ℕ) : String :=
  s!"Failed to read frame at position {startFrame}"

/-- The filename written for scene `i`: `os.path.join(output_dir, f"frame_{i}.jpg")`. -/
def frameFilename (outputDir : String) (i : ℕ) : String :=
  outputDir ++ "/frame_" ++ toString i ++ ".jpg"

/-- The per-scene loop of `extract_key_frames` over the enumerated scene list
(pairs of scene index and scene start frame).  For each scene it prints the
progress message, seeks, and on a successful read appends the written
filename, otherwise prints the failure message and continues with the
remaining scenes.  Returns the collected filenames and the printed
messages. -/
def processScenes (outputDir : String) (readOK : ℕ → Bool) (total : ℕ) :
    List (ℕ × ℕ) → List String × List String
  | [] => ([], [])
  | (i, s) :: rest =>
    let r := processScenes outputDir readOK total rest
    if readOK s then
      (frameFilename outputDir i :: r.1, processingMsg i total :: r.2)
    else
      (r.1, processingMsg i total :: readFailMsg s :: r.2)

/-- Models `extract_key_frames(video_path, output_dir)` (cell 17).  The
environment is explicit: `detection` is the outcome of
`video_manager.start(); scene_manager.detect_scenes(...)` followed by
`get_scene_list()` — an exception message, or the list of scene start frames;
`capOpens` is whether `cv2.VideoCapture(video_path).isOpened()`; `readOK s`
is whether `cap.read()` succeeds after seeking to start frame `s`
(`cv2.imwrite` is treated as always succeeding, as the source ignores its
return value).  Faithful to the source, `video_manager.release()` and
`cap.release()` are executed only after the scene loop completes: the three
early `return []` branches perform no release. -/
def extract_key_frames (detection : Except String (List ℕ)) (capOpens : Bool)
    (readOK : ℕ → Bool) (videoPath outputDir : String) : ExtractResult :=
  match detection with
  | Except.error e =>
    { frames := [], diagnostics := [sceneDetectErrorMsg e],
      vmReleased := false, capReleased := false }
  | Except.ok scene_list =>
    if scene_list = [] then
      { frames := [], diagnostics := [noScenesMsg],
        vmReleased := false, capReleased := false }
    else if capOpens then
      let r := processScenes outputDir readOK scene_list.length scene_list.enum
      { frames := r.1, diagnostics := detectedMsg scene_list.length :: r.2,
        vmReleased := true, capReleased := true }
    else
      { frames := [], diagnostics := [detectedMsg scene_list.length, openFailMsg videoPath],
        vmReleased := false, capReleased := false }

/-- A read outcome that always succeeds. -/
def alwaysReadOK : ℕ → Bool :=
  fun _ => true

/-- A read outcome that succeeds exactly at start frame 0. -/
def cexReadOK : ℕ → Bool :=
  fun s => s == 0

/-! ## Helper lemmas about the search model -/

/-- Inversion for a successful `search_frames` call: the returned table's rows
are the input rows with the similarity column written, the result rows are
the head of the descending sort of the mutated rows, and the embedding column
was present in the input. -/
theorem search_frames_ok_inv (sim : List ℚ → ℚ) (df : DataFrame) (top_n : ℕ)
    (df2 : DataFrame) (res : List Row)
    (h : search_frames sim df top_n = Except.ok (df2, res)) :
    df2.rows = df.rows.map (fun r => { r with similarity := some (sim r.embedding) }) ∧
    res = (sort_values_desc df2.rows).take top_n ∧
    df2.columns = (if "similarity" ∈ df.columns then df.columns else df.columns ++ ["similarity"]) ∧
    "embedding" ∈ df.columns := by
  by_cases hcol : "embedding" ∈ df.columns
  · simp only [search_frames, if_pos hcol, Except.ok.injEq, Prod.mk.injEq] at h
    obtain ⟨h1, h2⟩ := h
    subst h1
    subst h2
    exact ⟨rfl, rfl, rfl, hcol⟩
  · simp [search_frames, if_neg hcol] at h

/-- The descending sort is a permutation, hence preserves length. -/
theorem length_sort_values_desc (l : List Row) :
    (sort_values_desc l).length = l.length := by
  unfold sort_values_desc
  rw [List.length_reverse, List.length_insertionSort, List.length_reverse]

/-! ## Claims about `search_frames` -/

/-- Claim C1, counterexample: on the corpus the pipeline itself builds from
zero annotated frames — `pd.DataFrame([])`, a table with no columns —
`search_frames` raises `KeyError` for the embedding column instead of
returning an empty result sequence. -/
theorem C1_empty_corpus_raises :
    search_frames simZero (pdDataFrame []) 5 = Except.error "KeyError: embedding" :=
  rfl

/-- Claim C1, amended: on an empty frame table that does have the embedding
column, `search_frames` returns an empty result sequence (and the table with
a similarity column) without an error; the column-less empty table built by
`pd.DataFrame([])` instead raises `KeyError`. -/
theorem C1_empty_with_columns_ok (sim : List ℚ → ℚ) (top_n : ℕ) (cols : List String)
    (h : "embedding" ∈ cols) :
    search_frames sim ⟨cols, []⟩ top_n =
      Except.ok (⟨if "similarity" ∈ cols then cols else cols ++ ["similarity"], []⟩, []) := by
  simp [search_frames, h, sort_values_desc]

/-- Witness for `C1_empty_with_columns_ok` at a concrete column list. -/
theorem C1_empty_with_columns_ok_witness :
    ("embedding" ∈ ["embedding"]) ∧
    search_frames simZero ⟨["embedding"], []⟩ 5 =
      Except.ok (⟨["embedding", "similarity"], []⟩, []) :=
  ⟨by decide,
   (C1_empty_with_columns_ok simZero 5 ["embedding"] (by decide)).trans rfl⟩

/-- Claim C2, counterexample: running `search_frames` on a one-record corpus
returns a corpus table whose record now carries the computed similarity — the
table was mutated in place, so the Annotated Frame Record did not stay
unchanged. -/
theorem C2_search_mutates_corpus :
    search_frames simOne (pdDataFrame [r0]) 5 =
      Except.ok (⟨baseCols ++ ["similarity"], [r0s]⟩, [r0s]) ∧
    (⟨baseCols ++ ["similarity"], [r0s]⟩ : DataFrame) ≠ pdDataFrame [r0] :=
  ⟨rfl, by decide⟩

/-- Claim C2, amended: `search_frames` leaves the base fields of every corpus
record unchanged, but it writes the computed similarity of the current query
back onto every record of the corpus table (adding a similarity column),
mutating the table in place rather than keeping the score transient. -/
theorem C2_writes_similarity_back (sim : List ℚ → ℚ) (df : DataFrame) (top_n : ℕ)
    (df2 : DataFrame) (res : List Row)
    (h : search_frames sim df top_n = Except.ok (df2, res)) :
    df2.rows.map clearSim = df.rows.map clearSim ∧
    df2.rows.map Row.similarity = df.rows.map (fun r => some (sim r.embedding)) ∧
    "similarity" ∈ df2.columns := by
  obtain ⟨hrows, -, hcols, -⟩ := search_frames_ok_inv sim df top_n df2 res h
  refine ⟨?_, ?_, ?_⟩
  · rw [hrows, List.map_map]
    rfl
  · rw [hrows, List.map_map]
    rfl
  · rw [hcols]
    by_cases hs : "similarity" ∈ df.columns <;> simp [hs]

/-- Witness for `C2_writes_similarity_back` at a concrete one-record corpus. -/
theorem C2_writes_similarity_back_witness :
    search_frames simOne (pdDataFrame [r0]) 5 =
      Except.ok (⟨baseCols ++ ["similarity"], [r0s]⟩, [r0s]) ∧
    (⟨baseCols ++ ["similarity"], [r0s]⟩ : DataFrame).rows.map clearSim =
      (pdDataFrame [r0]).rows.map clearSim :=
  ⟨rfl,
   (C2_writes_similarity_back simOne (pdDataFrame [r0]) 5
     ⟨baseCols ++ ["similarity"], [r0s]⟩ [r0s] rfl).1⟩

/-- Claim C4, counterexample: on the column-less empty corpus built by the
pipeline (`pd.DataFrame([])`) and positive `top_n`, `search_frames` raises
`KeyError` instead of returning a sequence of `min(top_n, 0) = 0` results. -/
theorem C4_empty_corpus_raises :
    search_frames simZero (pdDataFrame []) 3 = Except.error "KeyError: embedding" :=
  rfl

/-- Claim C4, amended: whenever `search_frames` does return a result sequence
(the corpus table has the embedding column, as every table built from at
least one annotated frame does), that sequence has length exactly
`min(top_n, corpus size)`; in particular a `top_n` larger than the corpus
returns the whole corpus, sorted. -/
theorem C4_result_length_min (sim : List ℚ → ℚ) (df : DataFrame) (top_n : ℕ)
    (df2 : DataFrame) (res : List Row)
    (h : search_frames sim df top_n = Except.ok (df2, res)) :
    res.length = min top_n df.rows.length := by
  obtain ⟨hrows, hres, -, -⟩ := search_frames_ok_inv sim df top_n df2 res h
  rw [hres, List.length_take, length_sort_values_desc, hrows, List.length_map]

/-- Witness for `C4_result_length_min`: two records, `top_n = 3`, so the whole
corpus of size 2 comes back. -/
theorem C4_result_length_min_witness :
    search_frames simOne dfPair 3 = Except.ok (dfPairOut, [r0s, r1s]) ∧
    ([r0s, r1s] : List Row).length = min 3 dfPair.rows.length :=
  ⟨rfl, C4_result_length_min simOne dfPair 3 dfPairOut [r0s, r1s] rfl⟩

/-! ## Claims about annotation orchestration (cell 29) -/

/-- Claim C3, counterexample: with ten frames where only the caption call for
frame 1 fails, materialising `executor.map`'s results re-raises that failure,
so the run aborts with the error instead of producing a nine-record corpus. -/
theorem C3_one_failure_aborts_run :
    executor_map_list (process_frame cexUpload cexCaption cexEmbed) tenFrames =
      Except.error "caption call timed out" :=
  rfl

/-- Claim C3, amended: if annotating one frame fails while every earlier frame
in the list succeeds, `list(executor.map(process_frame, frame_list))`
re-raises that frame's error after yielding the earlier results, aborting the
whole materialisation: no corpus is built from the frames that succeeded, and
the failure is propagated as a process-level error rather than logged. -/
theorem C3_first_failure_propagates (upload : String → Except String String)
    (captionOf : String → Except String String)
    (embedOf : String → Except String (List ℚ))
    (pre : List String) (f : String) (post : List String) (e : String)
    (hpre : ∀ g ∈ pre, ∃ d, process_frame upload captionOf embedOf g = Except.ok d)
    (hf : process_frame upload captionOf embedOf f = Except.error e) :
    executor_map_list (process_frame upload captionOf embedOf) (pre ++ f :: post) =
      Except.error e := by
  induction pre with
  | nil => simp only [List.nil_append, executor_map_list, hf]
  | cons g t ih =>
    obtain ⟨d, hd⟩ := hpre g (List.mem_cons_self g t)
    have ht : ∀ g ∈ t, ∃ d, process_frame upload captionOf embedOf g = Except.ok d :=
      fun g hg => hpre g (List.mem_cons_of_mem _ hg)
    have hrec := ih ht
    simp only [List.cons_append, executor_map_list, hd, List.append_eq]
    rw [hrec]

/-- Witness for `C3_first_failure_propagates` at a concrete three-frame run
where the middle frame's caption call times out. -/
theorem C3_first_failure_propagates_witness :
    executor_map_list (process_frame cexUpload cexCaption cexEmbed)
      (["frame_0.jpg"] ++ "frame_1.jpg" :: ["frame_2.jpg"]) =
      Except.error "caption call timed out" :=
  C3_first_failure_propagates cexUpload cexCaption cexEmbed
    ["frame_0.jpg"] "frame_1.jpg" ["frame_2.jpg"] "caption call timed out"
    (fun g hg => by
      rw [List.mem_singleton] at hg
      subst hg
      exact ⟨⟨"frame_0.jpg", "https://bucket/frames/frame_0.jpg", "a caption", [1, 0]⟩, rfl⟩)
    rfl

/-! ## Claims about `extract_key_frames` (cell 17) -/

/-- Claim C6: when scene detection raises, `extract_key_frames` catches the
exception, prints a diagnostic, and returns the empty list — zero scenes is
reported to the caller as a normal value, not a fatal error (the model is a
total function). -/
theorem C6_detection_failure_zero_scenes (e : String) (capOpens : Bool)
    (readOK : ℕ → Bool) (vp dir : String) :
    (extract_key_frames (Except.error e) capOpens readOK vp dir).frames = [] ∧
    sceneDetectErrorMsg e ∈
      (extract_key_frames (Except.error e) capOpens readOK vp dir).diagnostics :=
  ⟨rfl, by simp [extract_key_frames]⟩

/-- The frames produced by the scene loop are exactly the filenames of the
scenes whose read succeeded, keyed by their scene index. -/
theorem processScenes_frames (dir : String) (readOK : ℕ → Bool) (total : ℕ)
    (l : List (ℕ × ℕ)) :
    (processScenes dir readOK total l).1 =
      (l.filter (fun p => readOK p.2)).map (fun p => frameFilename dir p.1) := by
  induction l with
  | nil => rfl
  | cons p t ih =>
    obtain ⟨i, s⟩ := p
    by_cases hs : readOK s <;> simp [processScenes, hs, List.filter_cons, ih]

/-- Every scene whose read fails leaves its failure message among the printed
diagnostics of the scene loop. -/
theorem processScenes_readfail_mem (dir : String) (readOK : ℕ → Bool) (total : ℕ)
    (l : List (ℕ × ℕ)) (i s : ℕ) (hmem : (i, s) ∈ l) (hfail : readOK s = false) :
    readFailMsg s ∈ (processScenes dir readOK total l).2 := by
  induction l with
  | nil => cases hmem
  | cons p t ih =>
    obtain ⟨j, u⟩ := p
    rcases List.mem_cons.mp hmem with hp | hp
    · injection hp with h1 h2
      subst h1
      subst h2
      have hred : processScenes dir readOK total ((i, s) :: t) =
          ((processScenes dir readOK total t).1,
           processingMsg i total :: readFailMsg s ::
             (processScenes dir readOK total t).2) := by
        simp [processScenes, hfail]
      rw [hred]
      exact List.mem_cons_of_mem _ (List.mem_cons_self _ _)
    · by_cases hu : readOK u = true
      · have hred : processScenes dir readOK total ((j, u) :: t) =
            (frameFilename dir j :: (processScenes dir readOK total t).1,
             processingMsg j total :: (processScenes dir readOK total t).2) := by
          simp [processScenes, hu]
        rw [hred]
        exact List.mem_cons_of_mem _ (ih hp)
      · have hu' : readOK u = false := by
          simp at hu
          exact hu
        have hred : processScenes dir readOK total ((j, u) :: t) =
            ((processScenes dir readOK total t).1,
             processingMsg j total :: readFailMsg u ::
               (processScenes dir readOK total t).2) := by
          simp [processScenes, hu']
        rw [hred]
        exact List.mem_cons_of_mem _ (List.mem_cons_of_mem _ (ih hp))

/-- Claim C7: on a run reaching the scene loop, a scene whose read fails is
simply excluded (the output is the filename list of exactly the scenes whose
read succeeded, with its failure diagnostic printed, and the loop continues);
never more frames than scenes are produced; and the originating scene indices
of the produced frames are pairwise distinct. -/
theorem C7_read_failure_skips_scene (scenes : List ℕ) (readOK : ℕ → Bool)
    (vp dir : String) (h : scenes ≠ []) :
    (extract_key_frames (Except.ok scenes) true readOK vp dir).frames =
      (scenes.enum.filter (fun p => readOK p.2)).map (fun p => frameFilename dir p.1) ∧
    (extract_key_frames (Except.ok scenes) true readOK vp dir).frames.length ≤
      scenes.length ∧
    ((scenes.enum.filter (fun p => readOK p.2)).map Prod.fst).Nodup ∧
    ∀ i s : ℕ, (i, s) ∈ scenes.enum → readOK s = false →
      readFailMsg s ∈ (extract_key_frames (Except.ok scenes) true readOK vp dir).diagnostics := by
  have hframes : (extract_key_frames (Except.ok scenes) true readOK vp dir).frames =
      (scenes.enum.filter (fun p => readOK p.2)).map (fun p => frameFilename dir p.1) := by
    simp [extract_key_frames, h, processScenes_frames]
  refine ⟨hframes, ?_, ?_, ?_⟩
  · rw [hframes]
    calc ((scenes.enum.filter (fun p => readOK p.2)).map
            (fun p => frameFilename dir p.1)).length
        = (scenes.enum.filter (fun p => readOK p.2)).length := List.length_map _ _
      _ ≤ scenes.enum.length := List.length_filter_le _ _
      _ = scenes.length := List.enum_length
  · exact ((List.filter_sublist _).map Prod.fst).nodup (List.nodup_enum_map_fst scenes)
  · intro i s hmem hfail
    have hdiag : readFailMsg s ∈
        (processScenes dir readOK scenes.length scenes.enum).2 :=
      processScenes_readfail_mem dir readOK scenes.length scenes.enum i s hmem hfail
    simp [extract_key_frames, h]
    exact Or.inr hdiag

/-- Witness for `C7_read_failure_skips_scene`: two scenes, the read at start
frame 120 fails, at most two frames come back. -/
theorem C7_read_failure_skips_scene_witness :
    ([0, 120] : List ℕ) ≠ [] ∧
    (extract_key_frames (Except.ok [0, 120]) true cexReadOK "movie.mp4" "frames").frames.length ≤
      ([0, 120] : List ℕ).length :=
  ⟨by decide,
   (C7_read_failure_skips_scene [0, 120] cexReadOK "movie.mp4" "frames" (by decide)).2.1⟩

/-- Claim C8, counterexample: on the zero-scenes path the scene-detection
video handle has been started but `extract_key_frames` returns without
calling `video_manager.release()`. -/
theorem C8_no_release_on_zero_scenes :
    (extract_key_frames (Except.ok ([] : List ℕ)) true alwaysReadOK
      "movie.mp4" "frames").vmReleased = false :=
  rfl

/-- Claim C8, amended: the decoder resources are released only on the path
that completes the scene loop (detection succeeded with at least one scene
and the capture opened); each of the three early-return paths — detection
failure, zero scenes, capture failing to open — returns without executing
either release call. -/
theorem C8_release_only_on_full_path (scenes : List ℕ) (readOK : ℕ → Bool)
    (e vp dir : String) (capOpens : Bool) (h : scenes ≠ []) :
    ((extract_key_frames (Except.ok scenes) true readOK vp dir).vmReleased = true ∧
     (extract_key_frames (Except.ok scenes) true readOK vp dir).capReleased = true) ∧
    (extract_key_frames (Except.error e) capOpens readOK vp dir).vmReleased = false ∧
    (extract_key_frames (Except.ok ([] : List ℕ)) capOpens readOK vp dir).vmReleased = false ∧
    (extract_key_frames (Except.ok scenes) false readOK vp dir).vmReleased = false := by
  refine ⟨⟨?_, ?_⟩, rfl, rfl, ?_⟩ <;> simp [extract_key_frames, h]

/-- Witness for `C8_release_only_on_full_path` at a concrete one-scene run. -/
theorem C8_release_only_on_full_path_witness :
    ([0] : List ℕ) ≠ [] ∧
    (extract_key_frames (Except.ok ([0] : List ℕ)) true alwaysReadOK
      "movie.mp4" "frames").vmReleased = true :=
  ⟨by decide,
   ((C8_release_only_on_full_path [0] alwaysReadOK "decode error" "movie.mp4" "frames"
      true (by decide)).1).1⟩

/-- Claim C10: `extract_key_frames` returns a list on every path; each of its
three failure branches — exception during scene detection, zero scenes
detected, failure to open the video — returns the empty list (the model is a
total function into `ExtractResult`, so nothing is raised and no `None`
occurs). -/
theorem C10_failure_branches_return_empty_list (e : String) (scenes : List ℕ)
    (capOpens : Bool) (readOK : ℕ → Bool) (vp dir : String) :
    (extract_key_frames (Except.error e) capOpens readOK vp dir).frames = [] ∧
    (extract_key_frames (Except.ok ([] : List ℕ)) capOpens readOK vp dir).frames = [] ∧
    (extract_key_frames (Except.ok scenes) false readOK vp dir).frames = [] := by
  refine ⟨rfl, rfl, ?_⟩
  rcases scenes with _ | ⟨a, t⟩
  · rfl
  · simp [extract_key_frames]

/-! ## Claim about cosine similarity (sklearn guard) -/

/-- The dot product of the zero vector with anything is zero. -/
theorem dotR_replicate_zero (n : ℕ) (y : List ℝ) :
    dotR (List.replicate n 0) y = 0 := by
  induction n generalizing y with
  | zero => simp [dotR]
  | succ m ih =>
    cases y with
    | nil => simp [dotR]
    | cons b t =>
      have hm := ih t
      simp only [dotR, List.replicate_succ, List.zipWith_cons_cons, List.sum_cons,
        zero_mul, zero_add] at hm ⊢
      exact hm

/-- The guarded norm of sklearn's `normalize` is never zero. -/
theorem safeNorm_ne_zero (x : List ℝ) : safeNorm x ≠ 0 := by
  unfold safeNorm
  split
  · exact one_ne_zero
  · next h => exact h

/-- Claim C9: the similarity of a zero-vector embedding with any query
embedding is exactly 0, and the denominator of the guarded cosine formula is
nonzero — the zero norm is replaced by 1, so no division by zero occurs. -/
theorem C9_zero_embedding_similarity_zero (n : ℕ) (y : List ℝ) :
    cosine_similarity (List.replicate n 0) y = 0 ∧
    safeNorm (List.replicate n 0) * safeNorm y ≠ 0 :=
  ⟨by unfold cosine_similarity; rw [dotR_replicate_zero]; exact zero_div _,
   mul_ne_zero (safeNorm_ne_zero _) (safeNorm_ne_zero _)⟩

end SceneSearch
